import Mathlib

/-!
Verification of the local record store (`localDb.js`) and the deterministic
generator functions (`appClient`) of the incident-command dashboard.

Modelling conventions:

* JavaScript objects are modelled by `Val` (a JSON-like value) and records by
  total functions `String → Val`, with `Val.undefined` standing for `undefined`.
  A field that is absent and a field explicitly set to `undefined` are
  indistinguishable through every access the source performs on stored
  records (`record?.[k]`, `===`, sorting), so they are conflated.
* `nowIso()` produces an ISO-8601 string; the lexicographic order on such
  strings of a fixed format coincides with chronological order, so the model
  represents a timestamp by its millisecond count as a rational number and
  the store operations take the clock reading as an explicit parameter.
* `uuid()` draws a fresh identifier; the model takes the generated id as an
  explicit parameter.
* `Array.prototype.sort` requires a consistent comparator for the result to
  be specified by ECMAScript; the comparator of `sortByField` is consistent
  on records that carry the sort field (with values of one primitive type)
  but reports `-1` in both directions when one record lacks the field, which
  leaves the order of such pairs implementation-defined.  The model uses a
  stable insertion sort driven by `compare a b ≤ 0`, which realises one of
  the permitted behaviours: it keeps the original relative order of every
  pair the comparator ties.
* JavaScript numbers are IEEE doubles; every numeric literal and operation
  appearing in the modelled code is exact decimal arithmetic whose double
  rounding never surfaces (all compared results are representable), so
  numbers are modelled by rationals.
-/

set_option autoImplicit false

namespace ICDI

/-- JSON-like runtime values.  `undefined` is JavaScript `undefined`. -/
inductive Val where
  | undefined : Val
  | str : String → Val
  | num : ℚ → Val
  | arr : List Val → Val
  | obj : List (String × Val) → Val

/-- A stored record: a total map from field names to values (`undefined` means
the field is absent). -/
def Rec := String → Val

/-- The table store: a map from table name to the list of records of that
table.  `ensureTable` initialises a missing table to `[]`, so an absent
table is modelled as the empty list. -/
def DB := String → List Rec

/-- The empty store (`{ tables: {}, version: 1 }`). -/
def emptyDB : DB := fun _ => []

/-- JavaScript strict equality (`===`) on the values of the model.
`undefined === undefined` is true.  Arrays and objects are compared by
reference in JavaScript and the source only compares values of distinct
provenance, so array/object comparisons are modelled as false. -/
def jsEqV : Val → Val → Bool
  | .undefined, .undefined => true
  | .str a, .str b => a == b
  | .num a, .num b => a == b
  | _, _ => false

/-- The JavaScript `>` comparison as used by `sortByField`.  Any comparison
involving `undefined` is false (it converts to NaN).  Strings compare
lexicographically; numbers numerically.  Mixed primitive comparisons convert
the string operand with `ToNumber`, which yields NaN (hence false) on every
non-numeric string this application stores; arrays/objects are never sorted
on by the application and are modelled as incomparable. -/
def jsGtV : Val → Val → Bool
  | .str a, .str b => decide (b.data < a.data)
  | .num a, .num b => decide (b < a)
  | _, _ => false

/-- `toLowerCase` on the ASCII data of this application, defined
structurally over the character list (the core `String.toLower` is defined
by well-founded recursion, which the kernel cannot evaluate). -/
def strLower (s : String) : String := String.mk (s.data.map Char.toLower)

/-- `toUpperCase`, structurally (see `strLower`). -/
def strUpper (s : String) : String := String.mk (s.data.map Char.toUpper)

/-- JavaScript truthiness of a value. -/
def valTruthy : Val → Bool
  | .undefined => false
  | .str s => s ≠ ""
  | .num q => q ≠ 0
  | .arr _ => true
  | .obj _ => true

/-- `x || fallback` for fields that hold strings: a missing field or the
empty string falls through to the fallback.  (The application stores only
strings in the fields read this way.) -/
def strOr (v : Val) (fallback : String) : String :=
  match v with
  | .str s => if s = "" then fallback else s
  | _ => fallback

/-- Build a record from an association list of fields (an object literal). -/
def recOfList (fields : List (String × Val)) : Rec :=
  fun k => (((fields.find? (fun p => p.1 == k)).map (fun p => p.2)).getD .undefined)

/-- Object spread `{ ...base, ...top }`: every field present on `top`
overrides the one of `base`. -/
def mergeRec (base top : Rec) : Rec :=
  fun k => match top k with
  | .undefined => base k
  | v => v

/-- The comparator passed to `copy.sort` by `sortByField`:
`av === bv` gives `0`, otherwise `(av > bv ? 1 : -1)`, negated for a
descending sort. -/
def sortCmp (field : String) (desc : Bool) (a b : Rec) : Int :=
  if jsEqV (a field) (b field) then 0
  else (if jsGtV (a field) (b field) then 1 else -1) * (if desc then -1 else 1)

/-- "`a` may stay before `b`": the comparator does not demand a swap. -/
def sortLe (field : String) (desc : Bool) (a b : Rec) : Prop :=
  sortCmp field desc a b ≤ 0

instance (field : String) (desc : Bool) : DecidableRel (sortLe field desc) :=
  fun a b => inferInstanceAs (Decidable (sortCmp field desc a b ≤ 0))

/-- `sortByField(items, sort)`: identity when `sort` is falsy; otherwise a
stable sort on the named field, descending when the name starts with `-`. -/
def sortByField (items : List Rec) (sort : String) : List Rec :=
  if sort = "" then items
  else
    let desc := ['-'].isPrefixOf sort.data
    let field := if desc then String.mk (sort.data.drop 1) else sort
    items.insertionSort (sortLe field desc)

/-- `matchesWhere(record, where)`: all entries must hold; an entry bound to
`undefined` is no constraint; an array entry matches when the record's field
(itself an array) shares an element with it (`includes` uses the same value
comparison as `===` on the primitives stored here); any other entry is a
strict equality test. -/
def matchesWhere (record : Rec) (w : List (String × Val)) : Bool :=
  w.all (fun kv =>
    match kv.2 with
    | .undefined => true
    | .arr xs =>
        (match record kv.1 with
         | .arr rs => xs.any (fun x => rs.any (fun r => jsEqV r x))
         | _ => false)
    | v => jsEqV (record kv.1) v)

namespace db

/-- `db.create(table, data)` builds
`{ id: uuid(), created_date: nowIso(), updated_date: nowIso(), ...data }`,
appends it to the table and returns it.  The generated uuid and the clock
reading are explicit parameters of the model. -/
def create (d : DB) (table : String) (data : Rec) (newId : String) (now : ℚ) :
    DB × Rec :=
  let rec0 : Rec := mergeRec
    (recOfList
      [("id", .str newId), ("created_date", .num now), ("updated_date", .num now)])
    data
  (fun t => if t = table then d table ++ [rec0] else d t, rec0)

/-- Replace the first record whose `id` field is `===` to `id` by
`{ ...old, ...patch, updated_date: nowIso() }`; `none` when no record
matches (the source throws `Record not found`). -/
def updateById (id : Val) (patch : Rec) (now : ℚ) :
    List Rec → Option (List Rec × Rec)
  | [] => none
  | r :: rest =>
    if jsEqV (r "id") id then
      let upd := mergeRec (mergeRec r patch) (recOfList [("updated_date", .num now)])
      some (upd :: rest, upd)
    else
      match updateById id patch now rest with
      | none => none
      | some (rest2, upd) => some (r :: rest2, upd)

/-- `db.update(table, id, patch)`. -/
def update (d : DB) (table : String) (id : Val) (patch : Rec) (now : ℚ) :
    Option (DB × Rec) :=
  match updateById id patch now (d table) with
  | none => none
  | some (t2, upd) => some (fun t => if t = table then t2 else d t, upd)

/-- Drop the first record whose `id` field is `===` to `id` (no-op when
absent). -/
def removeById (id : Val) : List Rec → List Rec
  | [] => []
  | r :: rest => if jsEqV (r "id") id then rest else r :: removeById id rest

/-- `db.remove(table, id)`; always reports `{ ok: true }`. -/
def remove (d : DB) (table : String) (id : Val) : DB :=
  fun t => if t = table then removeById id (d table) else d t

/-- `db.list(table, { sort, limit })`. -/
def list (d : DB) (table : String) (sort : String) (limit : Nat) : List Rec :=
  (sortByField (d table) sort).take limit

/-- `db.filter(table, { where, sort, limit })`. -/
def filter (d : DB) (table : String) (w : List (String × Val)) (sort : String)
    (limit : Nat) : List Rec :=
  (sortByField ((d table).filter (fun r => matchesWhere r w)) sort).take limit

end db

/-! ### The deterministic "AI" helpers of `appClient` -/

/-- `hay.includes(k)` (substring containment). -/
def jsIncludes (hay k : String) : Bool := decide (k.toList <:+: hay.toList)

/-- `Math.min` / `Math.max` on two (non-NaN) numbers. -/
def jsMin (a b : ℚ) : ℚ := if a ≤ b then a else b

def jsMax (a b : ℚ) : ℚ := if b ≤ a then a else b

/-- `clamp01 = (n) => Math.max(0, Math.min(1, n))`. -/
def clamp01 (n : ℚ) : ℚ := jsMax 0 (jsMin 1 n)

/-- `keywordScore(text, keywords)`: how many of the keywords occur in the
lowercased text. -/
def keywordScore (text : String) (keywords : List String) : Nat :=
  let t := strLower text
  keywords.foldl (fun acc k => if jsIncludes t k then acc + 1 else acc) 0

/-- The raw element list of an array value (`[]` for a non-array). -/
def rawArr : Val → List Val
  | .arr xs => xs
  | _ => []

/-- `r[k] || []` for a field holding an array of strings, with the string
elements extracted (the application stores only strings in the arrays read
this way). -/
def strListField (r : Rec) (k : String) : List String :=
  (rawArr (r k)).filterMap (fun v => match v with | .str s => some s | _ => none)

/-- `${v}` template-literal stringification, for the values this application
interpolates. -/
def valStr : Val → String
  | .str s => s
  | .undefined => "undefined"
  | _ => ""

/-- `incident?.title || "Incident"`. -/
def incTitle (inc : Rec) : String := strOr (inc "title") "Incident"

/-- `incident?.description || incident?.logs || ""`. -/
def incDesc (inc : Rec) : String := strOr (inc "description") (strOr (inc "logs") "")

/-- `(incident?.severity || "medium").toLowerCase()`. -/
def incSev (inc : Rec) : String := strLower (strOr (inc "severity") "medium")

/-- `incident?.affected_systems || []` (string elements). -/
def incSystems (inc : Rec) : List String := strListField inc "affected_systems"

def authKeywords : List String := ["auth", "login", "token", "sso"]
def dbKeywords : List String := ["db", "database", "postgres", "mysql", "query", "timeout"]
def apiKeywords : List String := ["api", "5xx", "gateway", "latency", "timeout"]

/-- The `isAuth` signal of `buildAnalysisFromIncident`. -/
def isAuthIncident (inc : Rec) : Bool :=
  decide (0 < keywordScore (incTitle inc ++ " " ++ incDesc inc) authKeywords)

/-- The `isDb` signal of `buildAnalysisFromIncident`. -/
def isDbIncident (inc : Rec) : Bool :=
  decide (0 < keywordScore (incTitle inc ++ " " ++ incDesc inc) dbKeywords)

/-- The `isApi` signal of `buildAnalysisFromIncident`. -/
def isApiIncident (inc : Rec) : Bool :=
  decide (0 < keywordScore (incTitle inc ++ " " ++ incDesc inc) apiKeywords)

/-- The severity→confidence table (`baseConf`), default 0.66. -/
def baseConfOf (sev : String) : ℚ :=
  if sev = "critical" then 78/100
  else if sev = "high" then 72/100
  else if sev = "medium" then 66/100
  else if sev = "low" then 6/10
  else 66/100

/-- `desc && desc.length > 40 ? 0 : 0.08`. -/
def dataQualityPenaltyOf (desc : String) : ℚ :=
  if desc ≠ "" ∧ 40 < desc.length then 0 else 8/100

structure RootCause where
  cause : String
  probability : ℚ
  evidence : List String
deriving DecidableEq, Repr

structure Recommendation where
  action : String
  priority : String
  confidence : ℚ
  rationale : String
  risks : String
  verification_steps : List String
deriving DecidableEq, Repr

structure Analysis where
  summary : String
  root_causes : List RootCause
  recommendations : List Recommendation
  estimated_recovery_time : String
  confidence_score : ℚ
  data_quality_notes : String
  limitations : List String
deriving DecidableEq, Repr

/-- `buildAnalysisFromIncident(incident)`. -/
def buildAnalysisFromIncident (inc : Rec) : Analysis :=
  let title := incTitle inc
  let desc := incDesc inc
  let sev := incSev inc
  let systems := incSystems inc
  let isAuth := decide (0 < keywordScore (title ++ " " ++ desc) authKeywords)
  let isDb := decide (0 < keywordScore (title ++ " " ++ desc) dbKeywords)
  let isApi := decide (0 < keywordScore (title ++ " " ++ desc) apiKeywords)
  let baseConf := baseConfOf sev
  let dataQualityPenalty := dataQualityPenaltyOf desc
  { summary := title ++ ": Preliminary assessment indicates " ++ strUpper sev ++
      " impact with likely dependency or capacity-related degradation. Prioritize stabilization and change correlation, then validate the most probable root cause with targeted diagnostics.",
    root_causes := [
      { cause := if isDb then "Database resource saturation (connections / slow queries)"
          else "Upstream dependency degradation (timeouts / elevated error rates)",
        probability := clamp01 (45/100 + (if isDb then 15/100 else 0)),
        evidence := [
          "Symptoms consistent with latency spikes and partial availability",
          if systems.length ≠ 0 then
            "Impacted systems: " ++ String.intercalate ", " (systems.take 3)
          else "Systems not specified"] },
      { cause := if isAuth then "Identity / token validation issue (SSO, cert, or token expiry)"
          else "Recent deployment or configuration change introduced regression",
        probability := clamp01 (3/10 + (if isAuth then 2/10 else 0)),
        evidence := [
          "Common failure mode for sudden onset incidents",
          "Validate with change logs and auth/error traces"] },
      { cause := if isApi then "API gateway/routing misconfiguration or rate limiting"
          else "Infrastructure/network instability",
        probability := clamp01 (25/100 + (if isApi then 15/100 else 0)),
        evidence := [
          "Could present as widespread 5xx/4xx bursts",
          "Validate with edge metrics, load balancer health, and dependency graph"] }],
    recommendations := [
      { action := "Check dashboards for error rates, latency, and saturation (CPU/memory/DB connections).",
        priority := if sev = "critical" ∨ sev = "high" then "critical" else "high",
        confidence := clamp01 (85/100 - dataQualityPenalty),
        rationale := "Quickly confirms whether the incident is systemic or isolated and identifies bottlenecks.",
        risks := "Low risk; read-only investigation.",
        verification_steps := [
          "Confirm error rate and p95/p99 latency against baseline",
          "Identify the top failing endpoint/service"] },
      { action := "Validate recent changes (deployments/config) and consider rollback if correlated.",
        priority := if sev = "critical" then "critical" else "high",
        confidence := clamp01 (72/100 - dataQualityPenalty),
        rationale := "Change correlation is frequently the fastest path to recovery.",
        risks := "Rollback may revert unrelated fixes; coordinate with release owner.",
        verification_steps := [
          "Compare start time vs deployment timeline",
          "If rollback, monitor key KPIs for recovery within 5–10 minutes"] },
      { action := "Run targeted diagnostics: dependency health checks, DB query sampling, and auth/token validation.",
        priority := if sev = "low" then "medium" else "high",
        confidence := clamp01 (7/10 - dataQualityPenalty),
        rationale := "Narrows root cause and supports durable fix.",
        risks := "Some diagnostics may increase load if run broadly.",
        verification_steps := [
          "Run on a single canary instance first",
          "Confirm no additional load/regression"] }],
    estimated_recovery_time :=
      if sev = "critical" then "30–90 minutes" else if sev = "high" then "1–3 hours" else "Same day",
    confidence_score := clamp01 (baseConf - dataQualityPenalty),
    data_quality_notes :=
      if desc ≠ "" ∧ 40 < desc.length then
        "Sufficient context provided for a first-pass assessment. Add exact timestamps, impacted endpoints, and key logs for higher confidence."
      else
        "Limited context provided. Add exact error messages, graphs (latency/error rate), and recent change details for a higher-confidence assessment.",
    limitations := [
      "Local analysis is heuristic and may not reflect production telemetry.",
      "Assumes common incident patterns; verify against metrics and logs."] }

structure DiagnosticScript where
  script_name : String
  description : String
  status : String
  command : String
  output : String
deriving DecidableEq, Repr

structure StakeholderCommunication where
  executive_summary : String
  technical_details : String
  customer_facing : String
  internal_update : String
deriving DecidableEq, Repr

structure Automation where
  assigned_team : String
  assignment_rationale : String
  automation_confidence : ℚ
  diagnostic_scripts : List DiagnosticScript
  stakeholder_communication : StakeholderCommunication
deriving DecidableEq, Repr

/-- `buildAutomationForIncident(incident, analysis)`.  The only field of
`analysis` the source reads is `analysis?.confidence_score ?? 0.7`; the
model passes that optional number directly (`none` encodes a missing
analysis or a missing field). -/
def buildAutomationForIncident (inc : Rec) (analysisConfidence : Option ℚ) : Automation :=
  let sev := incSev inc
  let systems := incSystems inc
  let source := strLower (strOr (inc "source") "")
  let team :=
    if jsIncludes source "network" then "Network Operations"
    else if systems.any (fun s => jsIncludes (strLower s) "db") then "Database Reliability"
    else if systems.any (fun s =>
        jsIncludes (strLower s) "auth" || jsIncludes (strLower s) "iam") then
      "Identity & Access"
    else "Site Reliability Engineering"
  { assigned_team := team,
    assignment_rationale :=
      if systems.length ≠ 0 then
        "Assignment based on affected systems: " ++ String.intercalate ", " (systems.take 3) ++ "."
      else "Assignment based on incident signals and standard ownership patterns.",
    automation_confidence := clamp01 (analysisConfidence.getD (7/10) + 1/10),
    diagnostic_scripts := [
      { script_name := "Service health snapshot",
        description := "Collect a quick snapshot of key KPIs and dependency health.",
        status := "completed",
        command := "curl -s https://status.your-service.local/health | jq .",
        output := "\x7b\n  \"status\": \"degraded\",\n  \"dependencies\": [\x7b\"name\":\"db\",\"status\":\"warn\"\x7d]\n\x7d" },
      { script_name := "Error-rate sampling",
        description := "Sample recent errors to identify dominant failure mode.",
        status := "completed",
        command := "tail -n 200 /var/log/app/error.log | grep -E \"5..|timeout|auth\" | head",
        output := "timeout contacting upstream dependency\nrequest_id=...\n" }],
    stakeholder_communication := {
      executive_summary :=
        if sev = "critical" then
          "We are currently mitigating a high-impact service incident. Teams are engaged, and initial triage suggests a dependency/capacity issue. Next update in 30 minutes."
        else
          "We are investigating a service degradation with limited scope. Initial triage is underway and we will provide updates as more information becomes available.",
      technical_details :=
        "Observed elevated error rates and latency for a subset of requests. Next steps: validate change correlation, inspect dependency health, and apply mitigation/rollback as needed.",
      customer_facing :=
        "Some users may experience intermittent issues. Our team is actively working to restore full service and will provide updates as we confirm stability.",
      internal_update :=
        "Triage in progress. Assigned team: " ++ team ++
          ". Focus areas: metrics review, dependency checks, and mitigation actions." } }

/-! ### The `functions.invoke` generator dispatch -/

/-- A knowledge-article suggestion entry. -/
structure Suggestion where
  article : Rec
  relevance_score : ℚ
  reason : String

/-- The result payload (`{ data: ... }`) of an invocation, one constructor
per shape the source returns. -/
inductive InvokeResult where
  | okFalse
  | created (recs : List Rec)
  | automation (r : Rec)
  | review (r : Rec)
  | suggestions (s : List Suggestion)
  | article (r : Rec)

/-- `{ "Customer Portal", ... }`, the `fallbackSystems` constant of the
predictions generator. -/
def fallbackSystems : List String :=
  ["Customer Portal", "Notifications", "Data Pipeline", "Search", "Billing"]

/-- The `sample` constant of the predictions generator: the three canned
alert templates. -/
def predictionSamples : List Rec := [
  recOfList [
    ("severity", .str "critical"), ("likelihood", .num (72/100)),
    ("predicted_timeframe", .str "within 48-72 hours"),
    ("predicted_issue", .str "PostgreSQL Connection Pool Exhaustion During Peak Hours"),
    ("description", .str "Pattern suggests repeat saturation during peak periods; mitigate before next traffic surge."),
    ("affected_systems", .arr [.str "PostgreSQL Primary", .str "Checkout API", .str "Payment Service", .str "Order Service"]),
    ("confidence_score", .num (72/100))],
  recOfList [
    ("severity", .str "high"), ("likelihood", .num (66/100)),
    ("predicted_timeframe", .str "within 12-24 hours"),
    ("predicted_issue", .str "API Gateway Latency Regression"),
    ("description", .str "Early indicators show p99 rising and error-rate drift in gateway tier; validate retries and capacity."),
    ("affected_systems", .arr [.str "API Gateway", .str "Lambda Functions", .str "DynamoDB"]),
    ("confidence_score", .num (66/100))],
  recOfList [
    ("severity", .str "high"), ("likelihood", .num (58/100)),
    ("predicted_timeframe", .str "within 24 hours"),
    ("predicted_issue", .str "Authentication Service Memory Leak Continuation"),
    ("description", .str "Memory usage trend could hit OOM threshold if not addressed; consider profiling and patch rollout."),
    ("affected_systems", .arr [.str "Auth Service", .str "Kubernetes Cluster"]),
    ("confidence_score", .num (58/100))]]

/-- The fields the creation loop spreads over each canned template
(timestamps staggered by `i` hours before `now`, in milliseconds). -/
def predictionExtras (i : Nat) (now : ℚ) : Rec :=
  recOfList [
    ("contributing_factors", .arr [.str "Recent incident patterns", .str "Traffic variability", .str "Resource pressure"]),
    ("preventative_actions", .arr [.str "Validate dashboards", .str "Review recent changes", .str "Prepare rollback"]),
    ("status", .str "active"),
    ("created_date", .num (now - i * 3600000)),
    ("updated_date", .num (now - i * 3600000))]

/-- `commonSystems[0] || fallbackSystems[0]`: the first affected system in
the flattening of the listed incidents (most recent first, limit 50), with
empty strings dropped by `filter(Boolean)`; the first fallback system when
none exists. -/
def predictionSeedSystem (d : DB) : String :=
  let incidents := db.list d "Incident" "-created_date" 50
  let commonSystems :=
    (incidents.flatMap (fun i => strListField i "affected_systems")).filter (fun s => s ≠ "")
  match commonSystems.head? with
  | some s => s
  | none => fallbackSystems.headD ""

/-- The data of the one extra alert tied to `predictionSeedSystem`. -/
def predictionExtraAlert (sys : String) (now : ℚ) : Rec :=
  recOfList [
    ("severity", .str "high"), ("likelihood", .num (6/10)),
    ("predicted_timeframe", .str "within 3-5 days"),
    ("predicted_issue", .str ("Elevated risk detected: " ++ sys)),
    ("description", .str "Recurring signals suggest elevated risk; monitor closely and validate mitigations."),
    ("affected_systems", .arr [.str sys]),
    ("confidence_score", .num (6/10)),
    ("contributing_factors", .arr [.str "Recurring alerts", .str "Recent change activity"]),
    ("preventative_actions", .arr [.str "Increase monitoring", .str "Validate thresholds", .str "Plan rollback"]),
    ("status", .str "active"),
    ("created_date", .num (now - 5 * 3600000)),
    ("updated_date", .num (now - 5 * 3600000))]

/-- The `generatePredictions` branch of `functions.invoke`.  `ids k` is the
uuid drawn by the `k`-th `db.create` call; `now` is the clock reading. -/
def generatePredictions (d : DB) (ids : Nat → String) (now : ℚ) : DB × List Rec :=
  let step := fun (acc : DB × List Rec) (p : Nat × Rec) =>
    let res := db.create acc.1 "PredictiveAlert" (mergeRec p.2 (predictionExtras p.1 now))
      (ids p.1) now
    (res.1, acc.2 ++ [res.2])
  let loop := predictionSamples.enum.foldl step (d, [])
  let sys := predictionSeedSystem d
  let last := db.create loop.1 "PredictiveAlert" (predictionExtraAlert sys now) (ids 3) now
  (last.1, loop.2 ++ [last.2])

/-- `incident.ai_analysis || buildAnalysisFromIncident(incident)`, reduced
to `analysis?.confidence_score ?? 0.7` as consumed by
`buildAutomationForIncident` (the only field it reads). -/
def incidentAnalysisConfidence (inc : Rec) : Option ℚ :=
  if valTruthy (inc "ai_analysis") then
    match inc "ai_analysis" with
    | .obj fs =>
        (match recOfList fs "confidence_score" with
         | .num q => some q
         | _ => none)
    | _ => none
  else some (buildAnalysisFromIncident inc).confidence_score

def scriptToVal (s : DiagnosticScript) : Val :=
  .obj [("script_name", .str s.script_name), ("description", .str s.description),
        ("status", .str s.status), ("command", .str s.command), ("output", .str s.output)]

def commToVal (c : StakeholderCommunication) : Val :=
  .obj [("executive_summary", .str c.executive_summary),
        ("technical_details", .str c.technical_details),
        ("customer_facing", .str c.customer_facing),
        ("internal_update", .str c.internal_update)]

/-- The fields of `{ ...automation }` as stored by the upsert. -/
def automationToRec (a : Automation) : Rec :=
  recOfList [
    ("assigned_team", .str a.assigned_team),
    ("assignment_rationale", .str a.assignment_rationale),
    ("automation_confidence", .num a.automation_confidence),
    ("diagnostic_scripts", .arr (a.diagnostic_scripts.map scriptToVal)),
    ("stakeholder_communication", commToVal a.stakeholder_communication)]

/-- The `automateIncidentResponse` branch.  `none` models a thrown
exception escaping the dispatch (a `NotFound` from the store). -/
def automateIncidentResponse (d : DB) (incidentId : Val) (ids : Nat → String) (now : ℚ) :
    Option (DB × InvokeResult) :=
  match (db.filter d "Incident" [("id", incidentId)] "-created_date" 1000).head? with
  | none => some (d, .okFalse)
  | some incident =>
    let automation := buildAutomationForIncident incident (incidentAnalysisConfidence incident)
    let existing :=
      (db.filter d "IncidentAutomation" [("incident_id", incidentId)] "-created_date" 1000).head?
    let upsert :=
      match existing with
      | some ex => db.update d "IncidentAutomation" (ex "id") (automationToRec automation) now
      | none => some (db.create d "IncidentAutomation"
          (mergeRec (recOfList [("incident_id", incidentId)]) (automationToRec automation))
          (ids 0) now)
    match upsert with
    | none => none
    | some (d1, record) =>
      let logged := db.create d1 "AuditLog"
        (recOfList [
          ("incident_id", incidentId),
          ("action_type", .str "automation_generated"),
          ("actor", .str "SYSTEM"),
          ("details", .obj [("assigned_team", record "assigned_team"),
                            ("confidence", record "automation_confidence")])])
        (ids 1) now
      some (logged.1, .automation record)

/-- `incident.ai_analysis?.summary || buildAnalysisFromIncident(incident).summary`. -/
def reviewSummary (inc : Rec) : String :=
  let viaStored :=
    match inc "ai_analysis" with
    | .obj fs => recOfList fs "summary"
    | _ => .undefined
  strOr viaStored (buildAnalysisFromIncident inc).summary

/-- The `generatePostIncidentReview` branch. -/
def generatePostIncidentReview (d : DB) (incidentId : Val) (ids : Nat → String) (now : ℚ) :
    Option (DB × InvokeResult) :=
  match (db.filter d "Incident" [("id", incidentId)] "-created_date" 1000).head? with
  | none => some (d, .okFalse)
  | some incident =>
    let logs := db.filter d "AuditLog" [("incident_id", incidentId)] "created_date" 1000
    let decisions := db.filter d "Decision" [("incident_id", incidentId)] "-created_date" 1000
    let review : Rec := recOfList [
      ("incident_id", incidentId),
      ("executive_summary", .str (reviewSummary incident)),
      ("customer_impact", .str (if jsEqV (incident "severity") (.str "critical") then "High"
        else if jsEqV (incident "severity") (.str "high") then "Moderate" else "Low")),
      ("timeline", .arr (logs.map (fun l =>
        .obj [("at", l "created_date"), ("action", l "action_type"), ("details", l "details")]))),
      ("decisions", .arr (decisions.map (fun dc =>
        .obj [("action", dc "recommendation_action"), ("decision", dc "decision"),
              ("reason", dc "decision_reason")]))),
      ("what_went_well", .arr [.str "Rapid triage and clear ownership",
        .str "Audit trail captured key actions"]),
      ("what_went_wrong", .arr [.str "Limited early signals / missing data",
        .str "Dependency coupling increased blast radius"]),
      ("action_items", .arr [
        .obj [("owner", .str "SRE"),
              ("item", .str "Add alerting for leading indicators (latency/queue depth)"),
              ("due", .str "2 weeks")],
        .obj [("owner", .str "App Team"),
              ("item", .str "Document rollback steps and add runbook"),
              ("due", .str "1 week")]])]
    let existing :=
      (db.filter d "PostIncidentReview" [("incident_id", incidentId)] "-created_date" 1000).head?
    let upsert :=
      match existing with
      | some ex => db.update d "PostIncidentReview" (ex "id") review now
      | none => some (db.create d "PostIncidentReview" review (ids 0) now)
    match upsert with
    | none => none
    | some (d1, record) =>
      let logged := db.create d1 "AuditLog"
        (recOfList [
          ("incident_id", incidentId),
          ("action_type", .str "post_incident_review_generated"),
          ("actor", .str "SYSTEM"),
          ("details", .obj [("review_id", record "id")])])
        (ids 1) now
      some (logged.1, .review record)

/-- Characters matched by `\w` (the source text is ASCII). -/
def isWordChar (c : Char) : Bool := c.isAlphanum || c == '_'

/-- Helper of `wordRuns`: the run of word characters at the head of the
text (possibly empty) and the completed runs after it. -/
def wordRunsCore : List Char → List Char × List (List Char)
  | [] => ([], [])
  | c :: cs =>
    let r := wordRunsCore cs
    if isWordChar c then (c :: r.1, r.2)
    else ([], if r.1 = [] then r.2 else r.1 :: r.2)

/-- `text.split(/\W+/).filter(Boolean)`: the maximal nonempty runs of word
characters of the text. -/
def wordRuns (l : List Char) : List String :=
  (if (wordRunsCore l).1 = [] then (wordRunsCore l).2
   else (wordRunsCore l).1 :: (wordRunsCore l).2).map (fun cs => String.mk cs)

/-- The lowercased incident text tokenised by `suggestKnowledgeArticles`. -/
def suggestText (inc : Rec) : String :=
  strLower (strOr (inc "title") "" ++ " " ++ strOr (inc "description") "" ++ " " ++
    String.intercalate " " (incSystems inc))

/-- The lowercased haystack of an article: title, summary and tags. -/
def articleHay (a : Rec) : String :=
  strLower (strOr (a "title") "" ++ " " ++ strOr (a "summary") "" ++ " " ++
    String.intercalate " " (strListField a "tags"))

/-- The token-containment score: the first 25 tokens of the text, tokens
shorter than 4 characters skipped, one point per token contained in the
haystack (tokens counted with multiplicity). -/
def suggestScore (text hay : String) : Nat :=
  ((wordRuns text.toList).take 25).foldl
    (fun acc token =>
      if token.length < 4 then acc
      else if jsIncludes hay token then acc + 1 else acc) 0

/-- One suggestion entry for an article. -/
def suggestionFor (text : String) (a : Rec) : Suggestion :=
  let relevance := clamp01 ((suggestScore text (articleHay a) : ℚ) / 10)
  { article := a,
    relevance_score := relevance,
    reason := if 7/10 < relevance then "Strong tag/title overlap"
      else if 4/10 < relevance then "Partial keyword match"
      else "Weak match" }

/-- The comparator `(a, b) => b.relevance_score - a.relevance_score` of the
suggestion sort: `a` may stay before `b` when the value is ≤ 0. -/
def suggLe (a b : Suggestion) : Prop := b.relevance_score - a.relevance_score ≤ 0

instance : DecidableRel suggLe :=
  fun a b => inferInstanceAs (Decidable (b.relevance_score - a.relevance_score ≤ 0))

/-- The `suggestKnowledgeArticles` branch (a pure query: the store is not
mutated).  Articles are fetched before the incident guard in the source;
fetching has no effect, so the model guards first. -/
def suggestKnowledgeArticles (d : DB) (incidentId : Val) : List Suggestion :=
  match (db.filter d "Incident" [("id", incidentId)] "-created_date" 1000).head? with
  | none => []
  | some incident =>
    let articles := db.list d "KnowledgeBaseArticle" "-created_date" 200
    let text := suggestText incident
    ((((articles.map (suggestionFor text)).filter
        (fun s => 25/100 ≤ s.relevance_score)).insertionSort suggLe).take 6)

/-- Interpret a stored `ai_analysis` value as the fields
`generateArticleFromIncident` reads.  The application stores only complete
analysis objects written by `buildAnalysisFromIncident` (or seed data of
the same shape); fields a malformed value would make the source throw on
are read with a neutral default. -/
def rootCauseOfVal (v : Val) : RootCause :=
  match v with
  | .obj fs =>
    { cause := valStr (recOfList fs "cause"),
      probability := (match recOfList fs "probability" with | .num q => q | _ => 0),
      evidence := strListField (recOfList fs) "evidence" }
  | _ => { cause := "", probability := 0, evidence := [] }

def recommendationOfVal (v : Val) : Recommendation :=
  match v with
  | .obj fs =>
    { action := valStr (recOfList fs "action"),
      priority := valStr (recOfList fs "priority"),
      confidence := (match recOfList fs "confidence" with | .num q => q | _ => 0),
      rationale := valStr (recOfList fs "rationale"),
      risks := valStr (recOfList fs "risks"),
      verification_steps := strListField (recOfList fs) "verification_steps" }
  | _ => { action := "", priority := "", confidence := 0, rationale := "", risks := "",
           verification_steps := [] }

def analysisOfVal (v : Val) : Analysis :=
  match v with
  | .obj fs =>
    { summary := valStr (recOfList fs "summary"),
      root_causes := (rawArr (recOfList fs "root_causes")).map rootCauseOfVal,
      recommendations := (rawArr (recOfList fs "recommendations")).map recommendationOfVal,
      estimated_recovery_time := valStr (recOfList fs "estimated_recovery_time"),
      confidence_score := (match recOfList fs "confidence_score" with | .num q => q | _ => 0),
      data_quality_notes := valStr (recOfList fs "data_quality_notes"),
      limitations := strListField (recOfList fs) "limitations" }
  | _ => { summary := "", root_causes := [], recommendations := [],
           estimated_recovery_time := "", confidence_score := 0, data_quality_notes := "",
           limitations := [] }

/-- `incident.ai_analysis || buildAnalysisFromIncident(incident)` as used by
`generateArticleFromIncident`. -/
def incidentAnalysis (inc : Rec) : Analysis :=
  if valTruthy (inc "ai_analysis") then analysisOfVal (inc "ai_analysis")
  else buildAnalysisFromIncident inc

/-- The `generateArticleFromIncident` branch. -/
def generateArticleFromIncident (d : DB) (incidentId : Val) (ids : Nat → String) (now : ℚ) :
    Option (DB × InvokeResult) :=
  match (db.filter d "Incident" [("id", incidentId)] "-created_date" 1000).head? with
  | none => some (d, .okFalse)
  | some incident =>
    let analysis := incidentAnalysis incident
    let content := "## Summary\n" ++ analysis.summary ++ "\n\n## Likely root causes\n" ++
      String.intercalate "\n" (analysis.root_causes.map (fun r =>
        "- **" ++ r.cause ++ "** (p=" ++ toString (round (r.probability * 100)) ++ "%)")) ++
      "\n\n## Recommended actions\n" ++
      String.intercalate "\n" (analysis.recommendations.map (fun r =>
        "- **" ++ strUpper r.priority ++ "**: " ++ r.action)) ++
      "\n\n## Verification\n- Monitor error rate and latency\n- Confirm recovery in customer workflows\n"
    let createRes := db.create d "KnowledgeBaseArticle"
      (recOfList [
        ("title", .str ("Runbook: " ++ valStr (incident "title"))),
        ("summary", .str analysis.summary),
        ("content", .str content),
        ("tags", .arr (incident "severity" :: (rawArr (incident "affected_systems")).take 3)),
        ("category", .str "runbook"),
        ("status", .str "draft")])
      (ids 0) now
    some (createRes.1, .article createRes.2)

/-- The `functions.invoke(name, payload)` dispatch.  `none` models a thrown
exception: the `Unknown function` error for unrecognised names, or a store
error escaping a branch. -/
def invoke (d : DB) (name : String) (payload : Rec) (ids : Nat → String) (now : ℚ) :
    Option (DB × InvokeResult) :=
  if name = "generatePredictions" then
    some ((generatePredictions d ids now).1, .created (generatePredictions d ids now).2)
  else if name = "automateIncidentResponse" then
    automateIncidentResponse d (payload "incident_id") ids now
  else if name = "generatePostIncidentReview" then
    generatePostIncidentReview d (payload "incident_id") ids now
  else if name = "suggestKnowledgeArticles" then
    some (d, .suggestions (suggestKnowledgeArticles d (payload "incident_id")))
  else if name = "generateArticleFromIncident" then
    generateArticleFromIncident d (payload "incident_id") ids now
  else none

/-! ### Reachable store states under well-formed operation sequences -/

/-- A caller payload that does not supply the store-managed date fields. -/
def CleanRec (r : Rec) : Prop :=
  r "created_date" = .undefined ∧ r "updated_date" = .undefined

/-- `GoodReach t d`: the store state `d` is reachable from the empty store
by `create`/`update`/`remove` operations whose payloads are `CleanRec` and
whose clock readings never decrease, the last reading being at most `t`.
A failed (`NotFound`) update leaves the state unchanged and is covered by
`wait`. -/
inductive GoodReach : ℚ → DB → Prop where
  | init (t : ℚ) : GoodReach t emptyDB
  | wait (t now : ℚ) (d : DB) : GoodReach t d → t ≤ now → GoodReach now d
  | create (t now : ℚ) (d : DB) (table : String) (data : Rec) (newId : String) :
      GoodReach t d → t ≤ now → CleanRec data →
      GoodReach now (db.create d table data newId now).1
  | update (t now : ℚ) (d d' : DB) (table : String) (id : Val) (patch : Rec) (u : Rec) :
      GoodReach t d → t ≤ now → CleanRec patch →
      db.update d table id patch now = some (d', u) →
      GoodReach now d'
  | remove (t : ℚ) (d : DB) (table : String) (id : Val) :
      GoodReach t d → GoodReach t (db.remove d table id)

/-- Every record of every table carries numeric dates with
`created_date ≤ updated_date ≤ t`. -/
def DatesOK (t : ℚ) (d : DB) : Prop :=
  ∀ table : String, ∀ r ∈ d table, ∃ c u : ℚ,
    r "created_date" = .num c ∧ r "updated_date" = .num u ∧ c ≤ u ∧ u ≤ t

/-! ### The affected-system pool named by the specification -/

/-- Number of occurrences of a system name in a pool. -/
def countOcc (l : List String) (s : String) : Nat := l.countP (fun x => x == s)

/-- All affected systems seen across the existing incidents. -/
def systemsPool (d : DB) : List String :=
  (d "Incident").flatMap (fun i => strListField i "affected_systems")

/-- Modelled from the spec: "the most frequent affected system seen across
existing incidents" — a system of the pool whose occurrence count is
maximal. -/
def isMostFrequentSystem (d : DB) (s : String) : Prop :=
  s ∈ systemsPool d ∧
    ∀ x ∈ systemsPool d, countOcc (systemsPool d) x ≤ countOcc (systemsPool d) s

/-! ### Concrete inputs used by the claim theorems -/

/-- The spec's concrete analyzer scenario. -/
def incDbOutage : Rec := recOfList [
  ("title", .str "DB outage"),
  ("description", .str "Postgres connection timeouts across checkout"),
  ("severity", .str "critical")]

/-- A create payload that itself carries a `created_date`. -/
def c1badData : Rec := recOfList [("created_date", .num 0), ("title", .str "x")]

def c2old : Rec := recOfList [
  ("id", .str "r1"), ("created_date", .num 0), ("updated_date", .num 0),
  ("note", .str "old")]

def c2db : DB := fun t => if t = "T" then [c2old] else []

/-- A record carrying the sort field. -/
def c3present : Rec := recOfList [("f", .str "a")]

/-- A record lacking the sort field. -/
def c3missing : Rec := recOfList [("title", .str "x")]

def c3s1 : DB × Rec := db.create emptyDB "T" (recOfList [("name", .str "R1")]) "r1" 1
def c3s2 : DB × Rec := db.create c3s1.1 "T" (recOfList [("name", .str "R2")]) "r2" 2
def c3s3 : DB × Rec := db.create c3s2.1 "T" (recOfList [("name", .str "R3")]) "r3" 3

def c4step1 : DB × Rec := db.create emptyDB "T" (recOfList []) "r1" 0
def c4patch : Rec := recOfList [("created_date", .num 99)]

def c6a : Rec := recOfList [
  ("title", .str "t"), ("severity", .str "high"), ("status", .str "new")]
def c6b : Rec := recOfList [
  ("title", .str "t"), ("severity", .str "high"), ("status", .str "closed")]

/-- The spec's automation scenario: `affected_systems: ["Auth Service"]`,
no "network" in the source. -/
def c7AuthInc : Rec := recOfList [
  ("source", .str "Datadog"), ("affected_systems", .arr [.str "Auth Service"])]

def c7NetInc : Rec := recOfList [("source", .str "Network Monitor")]

/-- An incident whose entire text is the title `"SSO callback failure"`. -/
def incSSO : Rec := recOfList [
  ("id", .str "inc_sso"), ("title", .str "SSO callback failure")]

/-- The same incident with a description supplying matching tokens. -/
def incSSOFull : Rec := recOfList [
  ("id", .str "inc_sso"), ("title", .str "SSO callback failure"),
  ("description", .str "auth callback token validation failures")]

/-- The seeded knowledge article tagged `["auth","sso","identity"]`. -/
def kbAuthArticle : Rec := recOfList [
  ("id", .str "kb_001"),
  ("title", .str "Runbook: Troubleshoot SSO callback failures"),
  ("summary", .str "Steps to diagnose auth callback 5xx, token validation errors, and certificate/clock skew issues."),
  ("tags", .arr [.str "auth", .str "sso", .str "identity"]),
  ("category", .str "runbook"), ("status", .str "published")]

/-- The other seeded knowledge article. -/
def kbPayArticle : Rec := recOfList [
  ("id", .str "kb_002"),
  ("title", .str "Runbook: Payments API latency and DB saturation"),
  ("summary", .str "DB connection pool, slow queries, and cache strategies for checkout stability."),
  ("tags", .arr [.str "payments", .str "database", .str "latency"]),
  ("category", .str "runbook"), ("status", .str "published")]

def dbC8 : DB := fun t =>
  if t = "Incident" then [incSSO]
  else if t = "KnowledgeBaseArticle" then [kbAuthArticle] else []

def dbC8full : DB := fun t =>
  if t = "Incident" then [incSSOFull]
  else if t = "KnowledgeBaseArticle" then [kbAuthArticle, kbPayArticle] else []

def c9inc1 : Rec := recOfList [
  ("id", .str "i1"), ("created_date", .num 100),
  ("affected_systems", .arr [.str "BService"])]
def c9inc2 : Rec := recOfList [
  ("id", .str "i2"), ("created_date", .num 50),
  ("affected_systems", .arr [.str "Alpha"])]
def c9inc3 : Rec := recOfList [
  ("id", .str "i3"), ("created_date", .num 40),
  ("affected_systems", .arr [.str "Alpha"])]

def c9db : DB := fun t => if t = "Incident" then [c9inc1, c9inc2, c9inc3] else []

def c10payload : Rec := recOfList [("incident_id", .str "nope")]

/-! ## Theorems -/

theorem jsEqV_str_self (s : String) : jsEqV (.str s) (.str s) = true := by
  simp [jsEqV]

/-- C1: the claim as stated is false: `db.create` spreads the caller data
*after* the generated fields (`{ id: uuid(), created_date: nowIso(),
updated_date: nowIso(), ...data }`), so a caller-supplied `created_date`
overrides the store's timestamp.  Creating at time 1 with a payload carrying
`created_date: 0` yields a record whose `created_date` is 0, not the current
timestamp 1. -/
theorem c1_counterexample :
    (db.create emptyDB "T" c1badData "id1" 1).2 "created_date" = .num 0 ∧
    Val.num 0 ≠ Val.num 1 := by
  refine ⟨rfl, fun h => ?_⟩
  have h0 : (0 : ℚ) = 1 := Val.num.inj h
  norm_num at h0

/-- C1 (amended): provided the caller data does not supply `id`,
`created_date` or `updated_date` and the drawn uuid is fresh for the table,
`create` returns a record carrying the new id (unique within the table) and
the current timestamp for both dates, with all caller-supplied fields merged
in, appends it to its table, leaves other tables unchanged, and a subsequent
`list` or `filter` (with a sufficient limit) includes the record. -/
theorem c1_create_contract (d : DB) (table : String) (data : Rec) (newId : String)
    (now : ℚ) (limit : Nat)
    (hid : data "id" = .undefined) (hcd : data "created_date" = .undefined)
    (hud : data "updated_date" = .undefined)
    (hfresh : ∀ r ∈ d table, jsEqV (r "id") (.str newId) = false)
    (hlim : (d table).length + 1 ≤ limit) :
    (db.create d table data newId now).2 "id" = .str newId ∧
    (db.create d table data newId now).2 "created_date" = .num now ∧
    (db.create d table data newId now).2 "updated_date" = .num now ∧
    (∀ k, k ≠ "id" → k ≠ "created_date" → k ≠ "updated_date" →
      (db.create d table data newId now).2 k = data k) ∧
    (db.create d table data newId now).1 table
      = d table ++ [(db.create d table data newId now).2] ∧
    (∀ t, t ≠ table → (db.create d table data newId now).1 t = d t) ∧
    ((db.create d table data newId now).1 table).countP
      (fun r => jsEqV (r "id") (.str newId)) = 1 ∧
    (db.create d table data newId now).2
      ∈ db.list ((db.create d table data newId now).1) table "-created_date" limit ∧
    (db.create d table data newId now).2
      ∈ db.filter ((db.create d table data newId now).1) table [] "-created_date" limit := by
  have hid' : (db.create d table data newId now).2 "id" = .str newId := by
    show mergeRec _ data "id" = _
    simp only [mergeRec, hid, recOfList]
    rfl
  have hcd' : (db.create d table data newId now).2 "created_date" = .num now := by
    show mergeRec _ data "created_date" = _
    simp only [mergeRec, hcd, recOfList]
    rfl
  have hud' : (db.create d table data newId now).2 "updated_date" = .num now := by
    show mergeRec _ data "updated_date" = _
    simp only [mergeRec, hud, recOfList]
    rfl
  have htab : (db.create d table data newId now).1 table
      = d table ++ [(db.create d table data newId now).2] := by
    simp [db.create]
  have hlen : ((db.create d table data newId now).1 table).length ≤ limit := by
    rw [htab]
    simpa using hlim
  have hmem : (db.create d table data newId now).2
      ∈ (db.create d table data newId now).1 table := by
    rw [htab]
    exact List.mem_append_right _ (List.mem_singleton.2 rfl)
  refine ⟨hid', hcd', hud', ?_, htab, ?_, ?_, ?_, ?_⟩
  · intro k h1 h2 h3
    show mergeRec _ data k = data k
    simp only [mergeRec, recOfList]
    have e1 : (("id" : String) == k) = false := by
      simpa using fun h => h1 h.symm
    have e2 : (("created_date" : String) == k) = false := by
      simpa using fun h => h2 h.symm
    have e3 : (("updated_date" : String) == k) = false := by
      simpa using fun h => h3 h.symm
    simp only [List.find?, e1, e2, e3]
    match data k with
    | .undefined => rfl
    | .str s => rfl
    | .num q => rfl
    | .arr xs => rfl
    | .obj fs => rfl
  · intro t ht
    simp [db.create, ht]
  · rw [htab, List.countP_append]
    have h0 : (d table).countP (fun r => jsEqV (r "id") (.str newId)) = 0 := by
      rw [List.countP_eq_zero]
      intro r hr
      simp [hfresh r hr]
    have h1 : ([(db.create d table data newId now).2]).countP
        (fun r => jsEqV (r "id") (.str newId)) = 1 := by
      rw [List.countP_cons_of_pos]
      · simp
      · simpa using hid' ▸ jsEqV_str_self newId
    rw [h0, h1]
  · show _ ∈ (sortByField _ "-created_date").take limit
    have hs : ¬(("-created_date" : String) = "") := by decide
    rw [sortByField, if_neg hs]
    rw [List.take_of_length_le (by simpa using hlen)]
    simpa using hmem
  · show _ ∈ (sortByField (((db.create d table data newId now).1 table).filter _)
      "-created_date").take limit
    have hfil : ((db.create d table data newId now).1 table).filter
        (fun r => matchesWhere r []) = (db.create d table data newId now).1 table := by
      apply List.filter_eq_self.2
      intro r _
      rfl
    rw [hfil]
    have hs : ¬(("-created_date" : String) = "") := by decide
    rw [sortByField, if_neg hs]
    rw [List.take_of_length_le (by simpa using hlen)]
    simpa using hmem

/-- Witness for C1 (amended) at a concrete store and payload. -/
theorem c1_witness :
    ((recOfList [("title", .str "t")] : Rec) "id" = .undefined) ∧
    ((recOfList [("title", .str "t")] : Rec) "created_date" = .undefined) ∧
    ((recOfList [("title", .str "t")] : Rec) "updated_date" = .undefined) ∧
    (∀ r ∈ emptyDB "T", jsEqV (r "id") (.str "a") = false) ∧
    (emptyDB "T").length + 1 ≤ 10 ∧
    (db.create emptyDB "T" (recOfList [("title", .str "t")]) "a" 5).2 "id" = .str "a" := by
  refine ⟨rfl, rfl, rfl, ?_, by decide, ?_⟩
  · intro r hr
    simp [emptyDB] at hr
  · exact (c1_create_contract emptyDB "T" (recOfList [("title", .str "t")]) "a" 5 10
      rfl rfl rfl (fun r hr => by simp [emptyDB] at hr) (by decide)).1

theorem updateById_none_iff (id : Val) (patch : Rec) (now : ℚ) (l : List Rec) :
    db.updateById id patch now l = none ↔ ∀ r ∈ l, jsEqV (r "id") id = false := by
  induction l with
  | nil => simp [db.updateById]
  | cons r rest ih =>
    cases hb : jsEqV (r "id") id with
    | true =>
      simp only [db.updateById, hb, if_true]
      constructor
      · intro habs
        exact Option.noConfusion habs
      · intro hall
        exact absurd (hall r (List.mem_cons_self r rest)) (by simp [hb])
    | false =>
      have hstep : db.updateById id patch now (r :: rest) =
          (match db.updateById id patch now rest with
           | none => none
           | some (rest2, upd) => some (r :: rest2, upd)) := by
        simp [db.updateById, hb]
      rw [hstep]
      cases heq : db.updateById id patch now rest with
      | none =>
        constructor
        · intro _ x hx
          rcases List.mem_cons.1 hx with h | h
          · exact h ▸ hb
          · exact (ih.1 heq) x h
        · intro _
          rfl
      | some p =>
        constructor
        · intro habs
          exact Option.noConfusion habs
        · intro hall
          have h0 : db.updateById id patch now rest = none :=
            ih.2 (fun x hx => hall x (List.mem_cons_of_mem r hx))
          rw [heq] at h0
          exact Option.noConfusion h0

theorem updateById_found (id : Val) (patch : Rec) (now : ℚ) :
    ∀ (pre : List Rec) (old : Rec) (post : List Rec),
      (∀ r ∈ pre, jsEqV (r "id") id = false) →
      jsEqV (old "id") id = true →
      db.updateById id patch now (pre ++ old :: post) =
        some (pre ++ mergeRec (mergeRec old patch)
            (recOfList [("updated_date", .num now)]) :: post,
          mergeRec (mergeRec old patch) (recOfList [("updated_date", .num now)]))
  | [], old, post, _, hm => by
    simp [db.updateById, hm]
  | r :: pre, old, post, hpre, hm => by
    have hr : jsEqV (r "id") id = false := hpre r (List.mem_cons_self r pre)
    have ihx := updateById_found id patch now pre old post
      (fun x hx => hpre x (List.mem_cons_of_mem r hx)) hm
    simp [db.updateById, hr, ihx]

/-- C2: `db.update` fails with NotFound exactly when no record of the table
has the given id; on the first matching record it returns the prior record
with the patch shallow-merged over it and `updated_date` refreshed to the
current clock reading, which is strictly greater than the prior
`updated_date` whenever the clock advanced since the record was last
written. -/
theorem c2_update_contract :
    (∀ (d : DB) (table : String) (id : Val) (patch : Rec) (now : ℚ),
      db.update d table id patch now = none ↔
        ∀ r ∈ d table, jsEqV (r "id") id = false) ∧
    (∀ (d : DB) (table : String) (id : Val) (patch : Rec) (now : ℚ)
      (pre post : List Rec) (old : Rec),
      d table = pre ++ old :: post →
      (∀ r ∈ pre, jsEqV (r "id") id = false) →
      jsEqV (old "id") id = true →
      ∃ d' upd, db.update d table id patch now = some (d', upd) ∧
        upd = mergeRec (mergeRec old patch) (recOfList [("updated_date", .num now)]) ∧
        upd "updated_date" = .num now ∧
        (∀ k, k ≠ "updated_date" → upd k = mergeRec old patch k) ∧
        d' table = pre ++ upd :: post ∧
        (∀ t, t ≠ table → d' t = d t) ∧
        (∀ t0 : ℚ, old "updated_date" = .num t0 → t0 < now →
          jsGtV (upd "updated_date") (old "updated_date") = true)) := by
  constructor
  · intro d table id patch now
    rw [db.update]
    cases heq : db.updateById id patch now (d table) with
    | none =>
      simpa [heq] using (updateById_none_iff id patch now (d table)).1 heq
    | some p =>
      constructor
      · intro habs
        exact Option.noConfusion habs
      · intro hall
        have h0 : db.updateById id patch now (d table) = none :=
          (updateById_none_iff id patch now (d table)).2 hall
        rw [heq] at h0
        exact Option.noConfusion h0
  · intro d table id patch now pre post old htab hpre hm
    have hfound := updateById_found id patch now pre old post hpre hm
    refine ⟨fun t => if t = table then pre ++ mergeRec (mergeRec old patch)
        (recOfList [("updated_date", .num now)]) :: post else d t,
      mergeRec (mergeRec old patch) (recOfList [("updated_date", .num now)]),
      ?_, rfl, rfl, ?_, by simp, ?_, ?_⟩
    · rw [db.update, htab, hfound]
    · intro k hk
      show mergeRec _ (recOfList [("updated_date", .num now)]) k = _
      simp only [mergeRec, recOfList, List.find?]
      have e : (("updated_date" : String) == k) = false := by
        simpa using fun h => hk h.symm
      simp only [e]
      match mergeRec old patch k with
      | .undefined => rfl
      | .str s => rfl
      | .num q => rfl
      | .arr xs => rfl
      | .obj fs => rfl
    · intro t ht
      simp [ht]
    · intro t0 h0 hlt
      have hu : mergeRec (mergeRec old patch)
          (recOfList [("updated_date", .num now)]) "updated_date" = .num now := rfl
      rw [hu, h0]
      simp [jsGtV, hlt]

/-- Witness for C2 on a one-record table whose clock advances. -/
theorem c2_witness :
    ∃ d' upd, db.update c2db "T" (.str "r1") (recOfList [("status", .str "resolved")]) 1
        = some (d', upd) ∧
      upd = mergeRec (mergeRec c2old (recOfList [("status", .str "resolved")]))
        (recOfList [("updated_date", .num 1)]) ∧
      upd "updated_date" = .num 1 ∧
      (∀ k, k ≠ "updated_date" →
        upd k = mergeRec c2old (recOfList [("status", .str "resolved")]) k) ∧
      d' "T" = [] ++ upd :: [] ∧
      (∀ t, t ≠ "T" → d' t = c2db t) ∧
      (∀ t0 : ℚ, c2old "updated_date" = .num t0 → t0 < 1 →
        jsGtV (upd "updated_date") (c2old "updated_date") = true) :=
  c2_update_contract.2 c2db "T" (.str "r1") (recOfList [("status", .str "resolved")]) 1
    [] [] c2old rfl (by simp) (by decide)

theorem string_data_ne {a b : String} (h : a ≠ b) : a.data ≠ b.data := by
  intro hd
  cases a
  cases b
  simp only at hd
  exact h (by rw [hd])

theorem sortLe_str_iff (field : String) (desc : Bool) (a b : Rec) (sa sb : String)
    (ha : a field = .str sa) (hb : b field = .str sb) :
    sortLe field desc a b ↔ (if desc then sb.data ≤ sa.data else sa.data ≤ sb.data) := by
  unfold sortLe sortCmp
  rw [ha, hb]
  by_cases he : sa = sb
  · subst he
    simp [jsEqV]
  · have hbeq : (sa == sb) = false := by simpa using he
    have hne := string_data_ne he
    simp only [jsEqV, hbeq, Bool.false_eq_true, if_false, jsGtV]
    by_cases hlt : sb.data < sa.data
    · have h1 : ¬ (sa.data ≤ sb.data) := not_le.2 hlt
      cases desc with
      | false => simp [hlt, h1]
      | true => simp [hlt, le_of_lt hlt]
    · have h2 : sa.data < sb.data := by
        rcases lt_trichotomy sa.data sb.data with h | h | h
        · exact h
        · exact absurd h hne
        · exact absurd h hlt
      cases desc with
      | false => simp [hlt, le_of_lt h2]
      | true => simp [hlt, not_le.2 h2]

theorem sortLe_num_iff (field : String) (desc : Bool) (a b : Rec) (qa qb : ℚ)
    (ha : a field = .num qa) (hb : b field = .num qb) :
    sortLe field desc a b ↔ (if desc then qb ≤ qa else qa ≤ qb) := by
  unfold sortLe sortCmp
  rw [ha, hb]
  by_cases he : qa = qb
  · subst he
    simp [jsEqV]
  · have hbeq : (qa == qb) = false := by simpa using he
    simp only [jsEqV, hbeq, Bool.false_eq_true, if_false, jsGtV]
    by_cases hlt : qb < qa
    · have h1 : ¬ (qa ≤ qb) := not_le.2 hlt
      cases desc with
      | false => simp [hlt, h1]
      | true => simp [hlt, le_of_lt hlt]
    · have h2 : qa < qb := by
        rcases lt_trichotomy qa qb with h | h | h
        · exact h
        · exact absurd h he
        · exact absurd h hlt
      cases desc with
      | false => simp [hlt, le_of_lt h2]
      | true => simp [hlt, not_le.2 h2]

theorem pairwise_orderedInsert {α : Type} (le : α → α → Prop) [DecidableRel le] (a : α) :
    ∀ l : List α,
      (∀ b ∈ l, le a b ∨ le b a) →
      (∀ b ∈ l, ∀ c ∈ l, le a b → le b c → le a c) →
      l.Pairwise le → (l.orderedInsert le a).Pairwise le
  | [], _, _, _ => by simp
  | h :: t, htot, htrans, hp => by
    rw [List.orderedInsert]
    by_cases hah : le a h
    · rw [if_pos hah]
      refine List.Pairwise.cons ?_ hp
      intro b hb
      rcases List.mem_cons.1 hb with rfl | hbt
      · exact hah
      · exact htrans h (List.mem_cons_self h t) b (List.mem_cons_of_mem h hbt) hah
          (List.rel_of_pairwise_cons hp hbt)
    · rw [if_neg hah]
      have hha : le h a := (htot h (List.mem_cons_self h t)).resolve_left hah
      refine List.Pairwise.cons ?_ ?_
      · intro b hb
        rcases (List.mem_orderedInsert le).1 hb with rfl | hbt
        · exact hha
        · exact List.rel_of_pairwise_cons hp hbt
      · exact pairwise_orderedInsert le a t
          (fun b hb => htot b (List.mem_cons_of_mem h hb))
          (fun b hb c hc => htrans b (List.mem_cons_of_mem h hb) c (List.mem_cons_of_mem h hc))
          hp.of_cons

theorem pairwise_insertionSort {α : Type} (le : α → α → Prop) [DecidableRel le] :
    ∀ l : List α,
      (∀ a ∈ l, ∀ b ∈ l, le a b ∨ le b a) →
      (∀ a ∈ l, ∀ b ∈ l, ∀ c ∈ l, le a b → le b c → le a c) →
      (l.insertionSort le).Pairwise le
  | [], _, _ => by simp
  | a :: t, htot, htrans => by
    rw [List.insertionSort]
    have hsub : ∀ x ∈ t.insertionSort le, x ∈ a :: t := fun x hx =>
      List.mem_cons_of_mem a ((List.mem_insertionSort le).1 hx)
    exact pairwise_orderedInsert le a (t.insertionSort le)
      (fun b hb => htot a (List.mem_cons_self a t) b (hsub b hb))
      (fun b hb c hc => htrans a (List.mem_cons_self a t) b (hsub b hb) c (hsub c hc))
      (pairwise_insertionSort le t
        (fun x hx y hy => htot x (List.mem_cons_of_mem a hx) y (List.mem_cons_of_mem a hy))
        (fun x hx y hy z hz => htrans x (List.mem_cons_of_mem a hx) y
          (List.mem_cons_of_mem a hy) z (List.mem_cons_of_mem a hz)))

/-- C3: the claim is false as stated: the comparator of `sortByField`
answers `-1` whichever way it is asked about a pair consisting of a record
missing the sort field and a record carrying it, so it never demands a
"missing before present" order; in the stable-sort model such a pair keeps
its original order, and a present-then-missing input comes back unchanged
rather than with the missing record first. -/
theorem c3_counterexample :
    c3present "f" = .str "a" ∧ c3missing "f" = .undefined ∧
    sortByField [c3present, c3missing] "f" = [c3present, c3missing] ∧
    sortByField [c3present, c3missing] "f" ≠ [c3missing, c3present] := by
  refine ⟨rfl, rfl, rfl, ?_⟩
  intro h
  rw [show sortByField [c3present, c3missing] "f" = [c3present, c3missing] from rfl] at h
  have h1 : c3present = c3missing := (List.cons.inj h).1
  have h2 : c3present "f" = c3missing "f" := congrFun h1 "f"
  exact Val.noConfusion h2

/-- C3 (amended): `list` returns at most `limit` records; on tables whose
records all carry the sort field with values of one primitive type the
result is ordered by that field (descending for a `-`-prefixed sort key);
an input the comparator already accepts — in particular one whose sort keys
are all ties — is returned unchanged (stability); and listing by
`-created_date` after creating R1, R2, R3 in that order returns them in
reverse creation order.  No order between records missing the sort field
and records carrying it is guaranteed. -/
theorem c3_list_contract :
    (∀ (d : DB) (table : String) (sort : String) (limit : Nat),
      (db.list d table sort limit).length ≤ limit) ∧
    (∀ (items : List Rec) (field : String) (desc : Bool),
      ((∀ r ∈ items, ∃ s, r field = .str s) ∨ (∀ r ∈ items, ∃ q, r field = .num q)) →
      (items.insertionSort (sortLe field desc)).Pairwise (sortLe field desc)) ∧
    (∀ items : List Rec,
      sortByField items "-created_date"
        = items.insertionSort (sortLe "created_date" true)) ∧
    (∀ (items : List Rec) (field : String) (desc : Bool),
      items.Pairwise (sortLe field desc) →
      items.insertionSort (sortLe field desc) = items) ∧
    db.list c3s3.1 "T" "-created_date" 100 = [c3s3.2, c3s2.2, c3s1.2] := by
  refine ⟨?_, ?_, fun items => rfl, ?_, rfl⟩
  · intro d table sort limit
    simp [db.list]
  · intro items field desc hk
    rcases hk with hstr | hnum
    · apply pairwise_insertionSort
      · intro x hx y hy
        obtain ⟨sx, hxf⟩ := hstr x hx
        obtain ⟨sy, hyf⟩ := hstr y hy
        rw [sortLe_str_iff field desc x y sx sy hxf hyf,
          sortLe_str_iff field desc y x sy sx hyf hxf]
        cases desc with
        | false =>
          rw [if_neg (by simp), if_neg (by simp)]
          exact le_total _ _
        | true =>
          rw [if_pos rfl, if_pos rfl]
          exact le_total _ _
      · intro x hx y hy z hz
        obtain ⟨sx, hxf⟩ := hstr x hx
        obtain ⟨sy, hyf⟩ := hstr y hy
        obtain ⟨sz, hzf⟩ := hstr z hz
        rw [sortLe_str_iff field desc x y sx sy hxf hyf,
          sortLe_str_iff field desc y z sy sz hyf hzf,
          sortLe_str_iff field desc x z sx sz hxf hzf]
        cases desc with
        | false =>
          rw [if_neg (by simp), if_neg (by simp), if_neg (by simp)]
          exact fun h1 h2 => le_trans h1 h2
        | true =>
          rw [if_pos rfl, if_pos rfl, if_pos rfl]
          exact fun h1 h2 => le_trans h2 h1
    · apply pairwise_insertionSort
      · intro x hx y hy
        obtain ⟨qx, hxf⟩ := hnum x hx
        obtain ⟨qy, hyf⟩ := hnum y hy
        rw [sortLe_num_iff field desc x y qx qy hxf hyf,
          sortLe_num_iff field desc y x qy qx hyf hxf]
        cases desc with
        | false =>
          rw [if_neg (by simp), if_neg (by simp)]
          exact le_total _ _
        | true =>
          rw [if_pos rfl, if_pos rfl]
          exact le_total _ _
      · intro x hx y hy z hz
        obtain ⟨qx, hxf⟩ := hnum x hx
        obtain ⟨qy, hyf⟩ := hnum y hy
        obtain ⟨qz, hzf⟩ := hnum z hz
        rw [sortLe_num_iff field desc x y qx qy hxf hyf,
          sortLe_num_iff field desc y z qy qz hyf hzf,
          sortLe_num_iff field desc x z qx qz hxf hzf]
        cases desc with
        | false =>
          rw [if_neg (by simp), if_neg (by simp), if_neg (by simp)]
          exact fun h1 h2 => le_trans h1 h2
        | true =>
          rw [if_pos rfl, if_pos rfl, if_pos rfl]
          exact fun h1 h2 => le_trans h2 h1
  · intro items field desc hp
    exact List.Sorted.insertionSort_eq hp

/-- Witness for C3 (amended) on a concrete singleton table. -/
theorem c3_witness :
    (([c3present] : List Rec).insertionSort (sortLe "f" false)).Pairwise
      (sortLe "f" false) :=
  c3_list_contract.2.1 [c3present] "f" false
    (Or.inl (fun r hr => by
      rcases List.mem_singleton.1 hr with rfl
      exact ⟨"a", rfl⟩))

theorem mem_removeById {id : Val} {l : List Rec} {r : Rec}
    (h : r ∈ db.removeById id l) : r ∈ l := by
  induction l with
  | nil => simp [db.removeById] at h
  | cons x rest ih =>
    cases hx : jsEqV (x "id") id with
    | true =>
      simp only [db.removeById, hx, if_true] at h
      exact List.mem_cons_of_mem x h
    | false =>
      simp only [db.removeById, hx, Bool.false_eq_true, if_false] at h
      rcases List.mem_cons.1 h with rfl | h
      · exact List.mem_cons_self r rest
      · exact List.mem_cons_of_mem x (ih h)

theorem updateById_some_shape {id : Val} {patch : Rec} {now : ℚ} :
    ∀ {l l' : List Rec} {u : Rec},
      db.updateById id patch now l = some (l', u) →
      ∃ pre old post, l = pre ++ old :: post ∧
        u = mergeRec (mergeRec old patch) (recOfList [("updated_date", .num now)]) ∧
        l' = pre ++ u :: post := by
  intro l
  induction l with
  | nil => intro l' u h; simp [db.updateById] at h
  | cons r rest ih =>
    intro l' u h
    cases hb : jsEqV (r "id") id with
    | true =>
      simp only [db.updateById, hb, if_true] at h
      obtain ⟨h1, h2⟩ := Prod.mk.inj (Option.some.inj h)
      exact ⟨[], r, rest, rfl, h2.symm, by simp [← h1, h2]⟩
    | false =>
      simp only [db.updateById, hb, Bool.false_eq_true, if_false] at h
      cases heq : db.updateById id patch now rest with
      | none => rw [heq] at h; exact Option.noConfusion h
      | some p =>
        rw [heq] at h
        obtain ⟨rest2, upd⟩ := p
        obtain ⟨h1, h2⟩ := Prod.mk.inj (Option.some.inj h)
        obtain ⟨pre, old, post, hl, hu, hl'⟩ := ih heq
        refine ⟨r :: pre, old, post, ?_, ?_, ?_⟩
        · rw [hl]
          simp
        · rw [← h2, hu]
        · rw [← h1, hl', h2]
          simp

theorem update_some_elim {d : DB} {table : String} {id : Val} {patch : Rec}
    {now : ℚ} {d' : DB} {u : Rec}
    (h : db.update d table id patch now = some (d', u)) :
    ∃ t2, db.updateById id patch now (d table) = some (t2, u) ∧
      d' = fun tb => if tb = table then t2 else d tb := by
  rw [db.update] at h
  cases heq : db.updateById id patch now (d table) with
  | none => rw [heq] at h; exact Option.noConfusion h
  | some p =>
    rw [heq] at h
    obtain ⟨t2, upd⟩ := p
    obtain ⟨h1, h2⟩ := Prod.mk.inj (Option.some.inj h)
    exact ⟨t2, by rw [h2], h1.symm⟩

/-- The merged update record keeps the old `created_date` when the patch
does not carry one, and always stamps `updated_date` with the clock. -/
theorem update_merge_dates (old patch : Rec) (now : ℚ)
    (hcd : patch "created_date" = .undefined) :
    mergeRec (mergeRec old patch) (recOfList [("updated_date", .num now)])
        "created_date" = old "created_date" ∧
    mergeRec (mergeRec old patch) (recOfList [("updated_date", .num now)])
        "updated_date" = .num now := by
  constructor
  · show (match (recOfList [("updated_date", .num now)]) "created_date" with
      | .undefined => mergeRec old patch "created_date"
      | v => v) = old "created_date"
    have h1 : (recOfList [("updated_date", .num now)]) "created_date" = .undefined := rfl
    rw [h1]
    show (match patch "created_date" with
      | .undefined => old "created_date"
      | v => v) = old "created_date"
    rw [hcd]
  · rfl

/-- C4: the claim is false as stated: an update patch that itself carries a
`created_date` field overwrites it (`{ ...old, ...patch, updated_date }`).
Creating a record at time 0 and updating it at time 1 with
`{ created_date: 99 }` changes the record's `created_date` from 0 to 99. -/
theorem c4_counterexample :
    c4step1.2 "created_date" = .num 0 ∧
    ∃ d' u, db.update c4step1.1 "T" (.str "r1") c4patch 1 = some (d', u) ∧
      u "created_date" = .num 99 ∧ Val.num 99 ≠ Val.num 0 := by
  refine ⟨rfl, _, _, rfl, rfl, fun h => ?_⟩
  have h0 : (99 : ℚ) = 0 := Val.num.inj h
  norm_num at h0

/-- C4 (amended): along any operation sequence whose create data and update
patches do not themselves supply `created_date`/`updated_date` and whose
clock never decreases, every stored record carries numeric dates with
`created_date ≤ updated_date ≤ current time`; moreover any single clean
update leaves every record's `created_date` unchanged (position by
position), stamps the updated record's `updated_date` with the clock
reading, and touches no other table. -/
theorem c4_dates_invariant :
    (∀ (t : ℚ) (d : DB), GoodReach t d → DatesOK t d) ∧
    (∀ (d : DB) (table : String) (id : Val) (patch : Rec) (now : ℚ)
      (d' : DB) (u : Rec),
      patch "created_date" = .undefined →
      db.update d table id patch now = some (d', u) →
      (d' table).map (fun r => r "created_date")
          = (d table).map (fun r => r "created_date") ∧
      u "updated_date" = .num now ∧
      (∀ tb, tb ≠ table → d' tb = d tb)) := by
  constructor
  · intro t d h
    induction h with
    | init t =>
      intro table r hr
      simp [emptyDB] at hr
    | wait t now d _ hle ih =>
      intro table r hr
      obtain ⟨c, u, h1, h2, h3, h4⟩ := ih table r hr
      exact ⟨c, u, h1, h2, h3, le_trans h4 hle⟩
    | create t now d table data newId _ hle hclean ih =>
      intro tb r hr
      by_cases htb : tb = table
      · subst htb
        have : (db.create d tb data newId now).1 tb = d tb ++ [(db.create d tb data newId now).2] := by
          simp [db.create]
        rw [this] at hr
        rcases List.mem_append.1 hr with hr | hr
        · obtain ⟨c, u, h1, h2, h3, h4⟩ := ih tb r hr
          exact ⟨c, u, h1, h2, h3, le_trans h4 hle⟩
        · rcases List.mem_singleton.1 hr with rfl
          refine ⟨now, now, ?_, ?_, le_refl now, le_refl now⟩
          · show (match data "created_date" with
              | .undefined => (recOfList [("id", .str newId), ("created_date", .num now),
                  ("updated_date", .num now)]) "created_date"
              | v => v) = .num now
            rw [hclean.1]
            rfl
          · show (match data "updated_date" with
              | .undefined => (recOfList [("id", .str newId), ("created_date", .num now),
                  ("updated_date", .num now)]) "updated_date"
              | v => v) = .num now
            rw [hclean.2]
            rfl
      · have : (db.create d table data newId now).1 tb = d tb := by
          simp [db.create, htb]
        rw [this] at hr
        obtain ⟨c, u, h1, h2, h3, h4⟩ := ih tb r hr
        exact ⟨c, u, h1, h2, h3, le_trans h4 hle⟩
    | update t now d d' table id patch u _ hle hclean hupd ih =>
      obtain ⟨t2, hbyid, hd'⟩ := update_some_elim hupd
      obtain ⟨pre, old, post, hl, hu, hl'⟩ := updateById_some_shape hbyid
      intro tb r hr
      by_cases htb : tb = table
      · subst htb
        rw [hd'] at hr
        simp only [if_pos rfl] at hr
        rw [hl'] at hr
        have hold : old ∈ d tb := by
          rw [hl]
          exact List.mem_append_right pre (List.mem_cons_self old post)
        obtain ⟨c0, u0, hc0, hu0, hcu0, hut0⟩ := ih tb old hold
        rcases List.mem_append.1 hr with hr | hr
        · have : r ∈ d tb := by
            rw [hl]
            exact List.mem_append_left _ hr
          obtain ⟨c, uu, h1, h2, h3, h4⟩ := ih tb r this
          exact ⟨c, uu, h1, h2, h3, le_trans h4 hle⟩
        · rcases List.mem_cons.1 hr with rfl | hr
          · obtain ⟨hck, huk⟩ := update_merge_dates old patch now hclean.1
            rw [hu]
            refine ⟨c0, now, ?_, ?_, ?_, le_refl now⟩
            · rw [hck, hc0]
            · rw [huk]
            · exact le_trans hcu0 (le_trans hut0 hle)
          · have : r ∈ d tb := by
              rw [hl]
              exact List.mem_append_right pre (List.mem_cons_of_mem old hr)
            obtain ⟨c, uu, h1, h2, h3, h4⟩ := ih tb r this
            exact ⟨c, uu, h1, h2, h3, le_trans h4 hle⟩
      · rw [hd'] at hr
        simp only [if_neg htb] at hr
        obtain ⟨c, uu, h1, h2, h3, h4⟩ := ih tb r hr
        exact ⟨c, uu, h1, h2, h3, le_trans h4 hle⟩
    | remove t d table id _ ih =>
      intro tb r hr
      by_cases htb : tb = table
      · subst htb
        have : (db.remove d tb id) tb = db.removeById id (d tb) := by
          simp [db.remove]
        rw [this] at hr
        exact ih tb r (mem_removeById hr)
      · have : (db.remove d table id) tb = d tb := by
          simp [db.remove, htb]
        rw [this] at hr
        exact ih tb r hr
  · intro d table id patch now d' u hcd hupd
    obtain ⟨t2, hbyid, hd'⟩ := update_some_elim hupd
    obtain ⟨pre, old, post, hl, hu, hl'⟩ := updateById_some_shape hbyid
    obtain ⟨hck, huk⟩ := update_merge_dates old patch now hcd
    refine ⟨?_, ?_, ?_⟩
    · have ht : d' table = t2 := by
        rw [hd']
        simp
      rw [ht, hl', hl]
      simp only [List.map_append, List.map_cons]
      rw [hu, hck]
    · rw [hu, huk]
    · intro tb htb
      rw [hd']
      simp [htb]

/-- Witness for C4 (amended): the invariant holds of a concretely reached
state, and a concrete clean update keeps `created_date` unchanged. -/
theorem c4_witness :
    DatesOK 5 (db.create emptyDB "T" (recOfList [("title", .str "x")]) "r1" 5).1 ∧
    ∃ d2 u2, db.update (db.create emptyDB "T" (recOfList [("title", .str "x")]) "r1" 5).1
        "T" (.str "r1") (recOfList [("title", .str "y")]) 7 = some (d2, u2) ∧
      (d2 "T").map (fun r => r "created_date")
        = ((db.create emptyDB "T" (recOfList [("title", .str "x")]) "r1" 5).1 "T").map
            (fun r => r "created_date") ∧
      u2 "updated_date" = .num 7 := by
  constructor
  · exact c4_dates_invariant.1 5 _
      (GoodReach.create 5 5 emptyDB "T" (recOfList [("title", .str "x")]) "r1"
        (GoodReach.init 5) (le_refl 5) ⟨rfl, rfl⟩)
  · refine ⟨_, _, rfl, ?_⟩
    have h := c4_dates_invariant.2
      (db.create emptyDB "T" (recOfList [("title", .str "x")]) "r1" 5).1
      "T" (.str "r1") (recOfList [("title", .str "y")]) 7 _ _ rfl rfl
    exact ⟨h.1, h.2.1⟩

/-- C5: on the incident `{title: "DB outage", description: "Postgres
connection timeouts across checkout", severity: "critical"}` the analyzer
classifies `isDb = true`, takes base confidence 0.78 from the severity
table (critical 0.78 / high 0.72 / medium 0.66 / low 0.60 / default 0.66),
applies no data-quality penalty (the description exceeds 40 characters),
and gives the first root cause probability `clamp01(0.45 + 0.15) = 0.60`. -/
theorem c5_db_outage_scenario :
    isDbIncident incDbOutage = true ∧
    incSev incDbOutage = "critical" ∧
    baseConfOf "critical" = 78/100 ∧ baseConfOf "high" = 72/100 ∧
    baseConfOf "medium" = 66/100 ∧ baseConfOf "low" = 6/10 ∧
    baseConfOf "unlisted" = 66/100 ∧
    40 < (incDesc incDbOutage).length ∧
    dataQualityPenaltyOf (incDesc incDbOutage) = 0 ∧
    (buildAnalysisFromIncident incDbOutage).confidence_score = 78/100 ∧
    (buildAnalysisFromIncident incDbOutage).root_causes.head?.map
      (fun c => c.probability) = some (clamp01 (45/100 + 15/100)) ∧
    clamp01 ((45 : ℚ)/100 + 15/100) = 3/5 := by
  have hsev : incSev incDbOutage = "critical" := by decide
  have hpen : dataQualityPenaltyOf (incDesc incDbOutage) = 0 := by decide
  have hdb : decide (0 < keywordScore
      (incTitle incDbOutage ++ " " ++ incDesc incDbOutage) dbKeywords) = true := by decide
  refine ⟨by decide, hsev, rfl, rfl, rfl, rfl, rfl, by decide, hpen, ?_, ?_, ?_⟩
  · show clamp01 (baseConfOf (incSev incDbOutage)
      - dataQualityPenaltyOf (incDesc incDbOutage)) = 78/100
    rw [hsev, hpen]
    rw [clamp01, jsMin, jsMax]
    norm_num [baseConfOf]
  · show some (clamp01 (45/100 + (if decide (0 < keywordScore
        (incTitle incDbOutage ++ " " ++ incDesc incDbOutage) dbKeywords) = true
        then 15/100 else 0))) = _
    rw [hdb]
    simp
  · rw [clamp01, jsMin, jsMax]
    norm_num

/-- C6: the analyzer output depends only on the incident's `title`,
`description`, `logs`, `severity` and `affected_systems` fields: two
incident records agreeing on those five fields — whatever their other
fields — produce identical analysis objects.  The analyzer is a pure
function of its input (it reads no store or ambient state), so two
invocations on one payload trivially coincide. -/
theorem c6_analyzer_deterministic (a b : Rec)
    (h1 : a "title" = b "title") (h2 : a "description" = b "description")
    (h3 : a "logs" = b "logs") (h4 : a "severity" = b "severity")
    (h5 : a "affected_systems" = b "affected_systems") :
    buildAnalysisFromIncident a = buildAnalysisFromIncident b := by
  unfold buildAnalysisFromIncident incTitle incDesc incSev incSystems strListField rawArr
  rw [h1, h2, h3, h4, h5]

/-- Witness for C6: two records differing in `status` but agreeing on the
five analyzer inputs get the same analysis. -/
theorem c6_witness :
    c6a "status" ≠ c6b "status" ∧
    buildAnalysisFromIncident c6a = buildAnalysisFromIncident c6b := by
  constructor
  · intro h
    have h0 := Val.str.inj h
    simp at h0
  · exact c6_analyzer_deterministic c6a c6b rfl rfl rfl rfl rfl

/-- C7: team assignment follows the fixed top-down precedence chain
(source contains "network" → Network Operations; else a system name
contains "db" → Database Reliability; else a system name contains "auth"
or "iam" → Identity & Access; else Site Reliability Engineering), the
automation confidence is `clamp01(confidence_score + 0.10)`, and the
concrete `["Auth Service"]` scenario is assigned "Identity & Access". -/
theorem c7_automation_contract :
    (∀ (inc : Rec) (conf : ℚ),
      (buildAutomationForIncident inc (some conf)).automation_confidence
        = clamp01 (conf + 1/10)) ∧
    (∀ (inc : Rec) (ac : Option ℚ),
      jsIncludes (strLower (strOr (inc "source") "")) "network" = true →
      (buildAutomationForIncident inc ac).assigned_team = "Network Operations") ∧
    (∀ (inc : Rec) (ac : Option ℚ),
      jsIncludes (strLower (strOr (inc "source") "")) "network" = false →
      (incSystems inc).any (fun s => jsIncludes (strLower s) "db") = true →
      (buildAutomationForIncident inc ac).assigned_team = "Database Reliability") ∧
    (∀ (inc : Rec) (ac : Option ℚ),
      jsIncludes (strLower (strOr (inc "source") "")) "network" = false →
      (incSystems inc).any (fun s => jsIncludes (strLower s) "db") = false →
      (incSystems inc).any (fun s =>
        jsIncludes (strLower s) "auth" || jsIncludes (strLower s) "iam") = true →
      (buildAutomationForIncident inc ac).assigned_team = "Identity & Access") ∧
    (∀ (inc : Rec) (ac : Option ℚ),
      jsIncludes (strLower (strOr (inc "source") "")) "network" = false →
      (incSystems inc).any (fun s => jsIncludes (strLower s) "db") = false →
      (incSystems inc).any (fun s =>
        jsIncludes (strLower s) "auth" || jsIncludes (strLower s) "iam") = false →
      (buildAutomationForIncident inc ac).assigned_team
        = "Site Reliability Engineering") ∧
    (buildAutomationForIncident c7AuthInc none).assigned_team = "Identity & Access" := by
  refine ⟨fun inc conf => rfl, ?_, ?_, ?_, ?_, rfl⟩
  · intro inc ac h
    simp [buildAutomationForIncident, h]
  · intro inc ac hnet hdb
    simp [buildAutomationForIncident, hnet, hdb]
  · intro inc ac hnet hdb hauth
    simp [buildAutomationForIncident, hnet, hdb, hauth]
  · intro inc ac hnet hdb hauth
    simp [buildAutomationForIncident, hnet, hdb, hauth]

/-- Witness for C7 on a "network"-sourced incident. -/
theorem c7_witness :
    jsIncludes (strLower (strOr (c7NetInc "source") "")) "network" = true ∧
    (buildAutomationForIncident c7NetInc none).assigned_team = "Network Operations" :=
  ⟨by decide, c7_automation_contract.2.1 c7NetInc none (by decide)⟩

theorem filter_id_empty {d : DB} {v : Val}
    (hmiss : ∀ r ∈ d "Incident", matchesWhere r [("id", v)] = false) :
    db.filter d "Incident" [("id", v)] "-created_date" 1000 = [] := by
  rw [db.filter]
  have h : (d "Incident").filter (fun r => matchesWhere r [("id", v)]) = [] :=
    List.filter_eq_nil_iff.2 (fun r hr => by simp [hmiss r hr])
  rw [h]
  rfl

/-- C10: when the payload's `incident_id` matches no Incident record, the
dispatch for `automateIncidentResponse`, `generatePostIncidentReview` and
`generateArticleFromIncident` returns normally with `{ ok: false }` and
leaves the whole store untouched. -/
theorem c10_missing_incident (d : DB) (v : Val) (payload : Rec)
    (ids : Nat → String) (now : ℚ)
    (hpay : payload "incident_id" = v)
    (hmiss : ∀ r ∈ d "Incident", matchesWhere r [("id", v)] = false) :
    invoke d "automateIncidentResponse" payload ids now = some (d, .okFalse) ∧
    invoke d "generatePostIncidentReview" payload ids now = some (d, .okFalse) ∧
    invoke d "generateArticleFromIncident" payload ids now = some (d, .okFalse) := by
  have hf := filter_id_empty hmiss
  refine ⟨?_, ?_, ?_⟩
  · simp [invoke, automateIncidentResponse, hpay, hf]
  · simp [invoke, generatePostIncidentReview, hpay, hf]
  · simp [invoke, generateArticleFromIncident, hpay, hf]

/-- Witness for C10 on the empty store. -/
theorem c10_witness :
    c10payload "incident_id" = Val.str "nope" ∧
    (∀ r ∈ emptyDB "Incident", matchesWhere r [("id", Val.str "nope")] = false) ∧
    invoke emptyDB "automateIncidentResponse" c10payload (fun _ => "u") 0
      = some (emptyDB, .okFalse) := by
  refine ⟨rfl, ?_, ?_⟩
  · intro r hr
    simp [emptyDB] at hr
  · exact (c10_missing_incident emptyDB (Val.str "nope") c10payload (fun _ => "u") 0 rfl
      (fun r hr => by simp [emptyDB] at hr)).1

/-- C9: the claim is false as stated: the extra alert is not parameterized
by the most frequent affected system.  The source takes
`commonSystems[0]` — the first affected system of the most recent incident
— so with a newest incident on `["BService"]` and two older incidents on
`["Alpha"]`, it picks "BService" (1 occurrence) although "Alpha" (2
occurrences) is the most frequent system. -/
theorem c9_counterexample :
    predictionSeedSystem c9db = "BService" ∧
    countOcc (systemsPool c9db) "Alpha" = 2 ∧
    countOcc (systemsPool c9db) "BService" = 1 ∧
    ¬ isMostFrequentSystem c9db "BService" := by
  refine ⟨by decide, by decide, by decide, ?_⟩
  intro h
  have h2 := h.2 "Alpha" (by decide)
  rw [show countOcc (systemsPool c9db) "Alpha" = 2 from by decide,
    show countOcc (systemsPool c9db) "BService" = 1 from by decide] at h2
  omega

/-- C9 (amended): every invocation of `generatePredictions` creates exactly
four PredictiveAlert records, appended to the table: three from the fixed
canned templates plus one parameterized by the *first* affected system of
the listed incidents (most recent first; the first fixed fallback system,
"Customer Portal", when no listed incident carries a nonempty system name).
All four are created with status "active" and staggered `created_date`
values of 0, 1 and 2 hours before `now` for the canned alerts and 5 hours
before `now` for the extra one. -/
theorem c9_predictions_contract (d : DB) (ids : Nat → String) (now : ℚ) :
    (generatePredictions d ids now).1 "PredictiveAlert"
      = d "PredictiveAlert" ++ (generatePredictions d ids now).2 ∧
    (generatePredictions d ids now).2.length = 4 ∧
    (generatePredictions d ids now).2.map (fun r => r "status")
      = [.str "active", .str "active", .str "active", .str "active"] ∧
    (generatePredictions d ids now).2.map (fun r => r "created_date")
      = [.num now, .num (now - 3600000), .num (now - 7200000),
         .num (now - 18000000)] ∧
    (generatePredictions d ids now).2.getLast?.map (fun r => r "predicted_issue")
      = some (.str ("Elevated risk detected: " ++ predictionSeedSystem d)) ∧
    predictionSeedSystem emptyDB = "Customer Portal" := by
  refine ⟨?_, ?_, ?_, ?_, ?_, by decide⟩
  · simp [generatePredictions, predictionSamples, List.enum, List.enumFrom, db.create]
  · simp [generatePredictions, predictionSamples, List.enum, List.enumFrom]
  · simp only [generatePredictions, predictionSamples, List.enum, List.enumFrom,
      List.foldl, db.create, List.map, List.cons_append, List.nil_append,
      List.map_cons, List.map_nil]
    rfl
  · simp only [generatePredictions, predictionSamples, List.enum, List.enumFrom,
      List.foldl, db.create, List.map, List.cons_append, List.nil_append,
      List.map_cons, List.map_nil, List.cons.injEq, and_true]
    refine ⟨?_, ?_, ?_, ?_⟩
    · exact congrArg Val.num (by push_cast; ring)
    · exact congrArg Val.num (by push_cast; ring)
    · exact congrArg Val.num (by push_cast; ring)
    · exact congrArg Val.num (by ring)
  · simp only [generatePredictions, predictionSamples, List.enum, List.enumFrom,
      List.foldl, db.create, List.cons_append, List.nil_append]
    rfl

/-- C8: the claim is false as stated: the tokenizer drops tokens shorter
than 4 characters, so the title token "sso" never matches, and an incident
whose whole text is "SSO callback failure" scores only 2 ("callback",
"failure") against the seeded `["auth","sso","identity"]`-tagged article:
relevance `clamp01(2/10) = 0.2 < 0.25`, so the article is filtered out and
the suggestion list is empty — it gets no relevance ≥ 0.25, no top-6 slot
and no "Partial keyword match" reason. -/
theorem c8_counterexample :
    kbAuthArticle "tags" = .arr [.str "auth", .str "sso", .str "identity"] ∧
    incSSO "title" = .str "SSO callback failure" ∧
    suggestScore (suggestText incSSO) (articleHay kbAuthArticle) = 2 ∧
    (suggestionFor (suggestText incSSO) kbAuthArticle).relevance_score = 1/5 ∧
    ¬ (25/100 ≤ (suggestionFor (suggestText incSSO) kbAuthArticle).relevance_score) ∧
    suggestKnowledgeArticles dbC8 (.str "inc_sso") = [] := by
  have hs : suggestScore (suggestText incSSO) (articleHay kbAuthArticle) = 2 := by decide
  have hrel : (suggestionFor (suggestText incSSO) kbAuthArticle).relevance_score = 1/5 := by
    show clamp01 ((suggestScore (suggestText incSSO) (articleHay kbAuthArticle) : ℚ) / 10)
      = 1/5
    rw [hs, clamp01, jsMin, jsMax]
    norm_num
  have hcond : ¬ ((25 : ℚ)/100
      ≤ (suggestionFor (suggestText incSSO) kbAuthArticle).relevance_score) := by
    rw [hrel]
    norm_num
  refine ⟨rfl, rfl, hs, hrel, hcond, ?_⟩
  have hhead : (db.filter dbC8 "Incident" [("id", (.str "inc_sso" : Val))]
      "-created_date" 1000).head? = some incSSO := rfl
  have harts : db.list dbC8 "KnowledgeBaseArticle" "-created_date" 200
      = [kbAuthArticle] := rfl
  have hb : decide ((25 : ℚ)/100
      ≤ (suggestionFor (suggestText incSSO) kbAuthArticle).relevance_score) = false :=
    decide_eq_false hcond
  simp only [suggestKnowledgeArticles, hhead, harts, List.map_cons, List.map_nil,
    List.filter_cons, hb, Bool.false_eq_true, if_false, List.filter_nil]
  rfl

set_option maxRecDepth 16000 in
/-- C8 (amended): the 0.25 threshold needs matching tokens beyond the
title: with the description "auth callback token validation failures" the
incident scores 7 against the seeded `["auth","sso","identity"]`-tagged
article (relevance 0.7 ≥ 0.25, reason "Partial keyword match") and 0
against the other seeded article, so the suggestion result is exactly that
one article entry (well inside the top 6). -/
theorem c8_suggestion_scenario :
    suggestScore (suggestText incSSOFull) (articleHay kbAuthArticle) = 7 ∧
    (suggestionFor (suggestText incSSOFull) kbAuthArticle).relevance_score = 7/10 ∧
    ((25 : ℚ)/100 ≤ 7/10) ∧
    (suggestionFor (suggestText incSSOFull) kbAuthArticle).reason
      = "Partial keyword match" ∧
    suggestScore (suggestText incSSOFull) (articleHay kbPayArticle) = 0 ∧
    suggestKnowledgeArticles dbC8full (.str "inc_sso")
      = [suggestionFor (suggestText incSSOFull) kbAuthArticle] := by
  have hs1 : suggestScore (suggestText incSSOFull) (articleHay kbAuthArticle) = 7 := by
    decide
  have hs2 : suggestScore (suggestText incSSOFull) (articleHay kbPayArticle) = 0 := by
    decide
  have hrel1 : (suggestionFor (suggestText incSSOFull) kbAuthArticle).relevance_score
      = 7/10 := by
    show clamp01 ((suggestScore (suggestText incSSOFull) (articleHay kbAuthArticle) : ℚ)
      / 10) = 7/10
    rw [hs1, clamp01, jsMin, jsMax]
    norm_num
  have hrel2 : (suggestionFor (suggestText incSSOFull) kbPayArticle).relevance_score
      = 0 := by
    show clamp01 ((suggestScore (suggestText incSSOFull) (articleHay kbPayArticle) : ℚ)
      / 10) = 0
    rw [hs2, clamp01, jsMin, jsMax]
    norm_num
  have hreason : (suggestionFor (suggestText incSSOFull) kbAuthArticle).reason
      = "Partial keyword match" := by
    show (if (7:ℚ)/10 < (suggestionFor (suggestText incSSOFull) kbAuthArticle).relevance_score
        then "Strong tag/title overlap"
        else if (4:ℚ)/10 < (suggestionFor (suggestText incSSOFull) kbAuthArticle).relevance_score
        then "Partial keyword match" else "Weak match") = "Partial keyword match"
    rw [hrel1, if_neg (by norm_num), if_pos (by norm_num)]
  refine ⟨hs1, hrel1, by norm_num, hreason, hs2, ?_⟩
  have hhead : (db.filter dbC8full "Incident" [("id", (.str "inc_sso" : Val))]
      "-created_date" 1000).head? = some incSSOFull := rfl
  have harts : db.list dbC8full "KnowledgeBaseArticle" "-created_date" 200
      = [kbAuthArticle, kbPayArticle] := rfl
  have hb1 : decide ((25 : ℚ)/100
      ≤ (suggestionFor (suggestText incSSOFull) kbAuthArticle).relevance_score) = true := by
    rw [hrel1]
    norm_num
  have hb2 : decide ((25 : ℚ)/100
      ≤ (suggestionFor (suggestText incSSOFull) kbPayArticle).relevance_score) = false := by
    rw [hrel2]
    norm_num
  simp only [suggestKnowledgeArticles, hhead, harts, List.map_cons, List.map_nil,
    List.filter_cons, hb1, hb2, Bool.false_eq_true, if_false, if_true,
    List.filter_nil]
  rfl

end ICDI

